import Mathlib

/-!
Verification development for the `software-development-principles` repository.

The repository contains three code examples:
  * a JavaScript DRY example (`UserManagerWET`, `ValidationUtils`,
    `FormattingUtils`, `UserLogger`, `UserManagerDRY`,
    `ConfigurableUserManager`), embedded below in namespace `DRYjs`;
  * a TypeScript DRY example (the same cast plus an email-pattern check,
    a stateful `UserLogger` and a `BaseUserManager`), embedded in
    namespace `DRYts`;
  * a JavaScript SOLID example (`Message`, sender classes,
    `NotificationService`), embedded in namespace `SOLIDjs`.

Modelling conventions:
  * JavaScript values that may be `undefined` are `Option String`;
    `jsFalsy` models JavaScript string falsiness (`undefined` and `""`
    are falsy).  `jsStr` reads the string out (only reached after a
    truthiness guard, mirroring short-circuit evaluation).
  * `throw new Error(msg)` is `Except.error msg`; normal completion of a
    `void` validation method is `Except.ok ()`.
  * `Math.random().toString(36).substr(2, 9)` and
    `new Date().toISOString()` are modelled by values supplied through an
    `Env` parameter (or explicit string parameters where the source calls
    them several times in one method).
  * `console.log` output is modelled as the `List String` of lines the
    call prints, returned next to the `Except` result, in program order.
-/

/-- JavaScript string truthiness: `undefined` and `""` are falsy. -/
def jsFalsy : Option String → Bool
  | none => true
  | some s => s == ""

/-- JavaScript string truthiness, positive form. -/
def jsTruthy (v : Option String) : Bool := !(jsFalsy v)

/-- Read a possibly-`undefined` string (used after a truthiness guard,
mirroring the short-circuit evaluation of the source's `!x || x.length < n`). -/
def jsStr (v : Option String) : String := v.getD ""

/-- `String.prototype.toLowerCase`, modelled character-wise (structurally,
so that proofs can evaluate it on concrete strings). -/
def jsToLowerCase (s : String) : String := String.mk (s.data.map Char.toLower)

/-- `String.prototype.trim`: strip leading and trailing whitespace. -/
def jsTrim (s : String) : String :=
  String.mk (((s.data.dropWhile Char.isWhitespace).reverse.dropWhile
    Char.isWhitespace).reverse)

/-- Environment supplying the results of the effectful one-liners
`FormattingUtils.generateId` (`Math.random().toString(36).substr(2, 9)`)
and `FormattingUtils.getCurrentTimestamp` (`new Date().toISOString()`). -/
structure Env where
  genId : String
  now : String
  deriving DecidableEq

namespace DRYjs

/-- `userData` records passed to the JS user managers: every field may be
absent (`undefined`). -/
structure UserData where
  email : Option String
  name : Option String
  password : Option String
  deriving DecidableEq

/-- The user records built by the JS user managers. -/
structure User where
  id : String
  email : String
  name : String
  password : Option String
  createdAt : Option String
  updatedAt : String
  deriving DecidableEq

/-- The `VALIDATION_RULES` constant object of the JS DRY example. -/
structure ValidationRules where
  EMAIL_MIN_LENGTH : Nat
  NAME_MIN_LENGTH : Nat
  PASSWORD_MIN_LENGTH : Nat

def VALIDATION_RULES : ValidationRules :=
  { EMAIL_MIN_LENGTH := 5, NAME_MIN_LENGTH := 2, PASSWORD_MIN_LENGTH := 8 }

namespace ValidationUtils

/-- `ValidationUtils.validateEmail` (JS). -/
def validateEmail (email : Option String) : Except String Unit :=
  if jsFalsy email || (jsStr email).length < VALIDATION_RULES.EMAIL_MIN_LENGTH then
    .error "Invalid email"
  else .ok ()

/-- `ValidationUtils.validateName` (JS). -/
def validateName (name : Option String) : Except String Unit :=
  if jsFalsy name || (jsStr name).length < VALIDATION_RULES.NAME_MIN_LENGTH then
    .error "Invalid name"
  else .ok ()

/-- `ValidationUtils.validatePassword` (JS): two sequential `if` throws,
for the required and the optional case. -/
def validatePassword (password : Option String) (required : Bool) : Except String Unit :=
  if required && (jsFalsy password || (jsStr password).length < VALIDATION_RULES.PASSWORD_MIN_LENGTH) then
    .error "Password too short"
  else if !required && (jsTruthy password && (jsStr password).length < VALIDATION_RULES.PASSWORD_MIN_LENGTH) then
    .error "Password too short"
  else .ok ()

end ValidationUtils

namespace FormattingUtils

/-- `FormattingUtils.formatEmail` (JS): `email.toLowerCase().trim()`. -/
def formatEmail (email : String) : String := jsTrim (jsToLowerCase email)

/-- `FormattingUtils.formatName` (JS): `name.trim()`. -/
def formatName (name : String) : String := jsTrim name

end FormattingUtils

namespace UserLogger

/-- `UserLogger.logUserCreated` (JS): the line printed. -/
def logUserCreated (user : User) : String :=
  "User created: " ++ user.name ++ " (" ++ user.email ++ ")"

/-- `UserLogger.logUserUpdated` (JS): the line printed. -/
def logUserUpdated (user : User) : String :=
  "User updated: " ++ user.name ++ " (" ++ user.email ++ ")"

end UserLogger

namespace UserManagerWET

/-- `UserManagerWET.createUser` (JS).  `genId` is the result of the
`Math.random` id expression, `ts1` and `ts2` those of the two
`new Date().toISOString()` calls. -/
def createUser (genId ts1 ts2 : String) (u : UserData) :
    Except String User × List String :=
  if jsFalsy u.email || (jsStr u.email).length < 5 then
    (.error "Invalid email", [])
  else if jsFalsy u.name || (jsStr u.name).length < 2 then
    (.error "Invalid name", [])
  else if jsFalsy u.password || (jsStr u.password).length < 8 then
    (.error "Password too short", [])
  else
    let user : User :=
      { id := genId
        email := jsTrim (jsToLowerCase (jsStr u.email))
        name := jsTrim (jsStr u.name)
        password := u.password
        createdAt := some ts1
        updatedAt := ts2 }
    (.ok user, ["User created: " ++ user.name ++ " (" ++ user.email ++ ")"])

/-- `UserManagerWET.updateUser` (JS).  `ts` is the result of the single
`new Date().toISOString()` call. -/
def updateUser (userId : String) (ts : String) (u : UserData) :
    Except String User × List String :=
  if jsFalsy u.email || (jsStr u.email).length < 5 then
    (.error "Invalid email", [])
  else if jsFalsy u.name || (jsStr u.name).length < 2 then
    (.error "Invalid name", [])
  else if jsTruthy u.password && (jsStr u.password).length < 8 then
    (.error "Password too short", [])
  else
    let updatedUser : User :=
      { id := userId
        email := jsTrim (jsToLowerCase (jsStr u.email))
        name := jsTrim (jsStr u.name)
        password := u.password
        createdAt := none
        updatedAt := ts }
    (.ok updatedUser,
      ["User updated: " ++ updatedUser.name ++ " (" ++ updatedUser.email ++ ")"])

end UserManagerWET

namespace UserManagerDRY

/-- `UserManagerDRY.validateUserData` (JS). -/
def validateUserData (u : UserData) (isUpdate : Bool) : Except String Unit := do
  ValidationUtils.validateEmail u.email
  ValidationUtils.validateName u.name
  ValidationUtils.validatePassword u.password (!isUpdate)

/-- `UserManagerDRY.formatUserData` (JS).  `userId = none` models the
`userId = null` default of `createUser`; `userId || generateId()` and the
`userId ? {} : { createdAt: timestamp }` spread use JS truthiness. -/
def formatUserData (env : Env) (u : UserData) (userId : Option String) : User :=
  let timestamp := env.now
  { id := if jsTruthy userId then jsStr userId else env.genId
    email := FormattingUtils.formatEmail (jsStr u.email)
    name := FormattingUtils.formatName (jsStr u.name)
    password := u.password
    createdAt := if jsTruthy userId then none else some timestamp
    updatedAt := timestamp }

/-- `UserManagerDRY.createUser` (JS): validate, format, log, return. -/
def createUser (env : Env) (u : UserData) : Except String User × List String :=
  match validateUserData u false with
  | .error e => (.error e, [])
  | .ok _ =>
    let user := formatUserData env u none
    (.ok user, [UserLogger.logUserCreated user])

/-- `UserManagerDRY.updateUser` (JS). -/
def updateUser (env : Env) (userId : String) (u : UserData) :
    Except String User × List String :=
  match validateUserData u true with
  | .error e => (.error e, [])
  | .ok _ =>
    let updatedUser := formatUserData env u (some userId)
    (.ok updatedUser, [UserLogger.logUserUpdated updatedUser])

end UserManagerDRY

namespace ConfigurableUserManager

/-- The merged configuration of a JS `ConfigurableUserManager`. -/
structure Config where
  emailMinLength : Nat
  nameMinLength : Nat
  passwordMinLength : Nat
  loggingEnabled : Bool
  deriving DecidableEq

/-- The configuration produced by `new ConfigurableUserManager()` with no
overrides. -/
def defaultConfig : Config :=
  { emailMinLength := 5, nameMinLength := 2, passwordMinLength := 8
    loggingEnabled := true }

/-- `ConfigurableUserManager.validate` (JS): the generic field check,
throwing `Invalid <field>`. -/
def validate (field : String) (value : Option String) (minLength : Nat) :
    Except String Unit :=
  if jsFalsy value || (jsStr value).length < minLength then
    .error ("Invalid " ++ field)
  else .ok ()

/-- `ConfigurableUserManager.validateUserData` (JS). -/
def validateUserData (cfg : Config) (u : UserData) (isUpdate : Bool) :
    Except String Unit := do
  validate "email" u.email cfg.emailMinLength
  validate "name" u.name cfg.nameMinLength
  if !isUpdate || jsTruthy u.password then
    validate "password" u.password cfg.passwordMinLength

/-- `ConfigurableUserManager.formatUserData` (JS) — the source duplicates
`UserManagerDRY.formatUserData` verbatim. -/
def formatUserData (env : Env) (u : UserData) (userId : Option String) : User :=
  let timestamp := env.now
  { id := if jsTruthy userId then jsStr userId else env.genId
    email := FormattingUtils.formatEmail (jsStr u.email)
    name := FormattingUtils.formatName (jsStr u.name)
    password := u.password
    createdAt := if jsTruthy userId then none else some timestamp
    updatedAt := timestamp }

/-- `ConfigurableUserManager.log` (JS): prints only when logging is enabled. -/
def log (cfg : Config) (message : String) : List String :=
  if cfg.loggingEnabled then [message] else []

/-- `ConfigurableUserManager.createUser` (JS). -/
def createUser (cfg : Config) (env : Env) (u : UserData) :
    Except String User × List String :=
  match validateUserData cfg u false with
  | .error e => (.error e, [])
  | .ok _ =>
    let user := formatUserData env u none
    (.ok user, log cfg ("User created: " ++ user.name ++ " (" ++ user.email ++ ")"))

/-- `ConfigurableUserManager.updateUser` (JS). -/
def updateUser (cfg : Config) (env : Env) (userId : String) (u : UserData) :
    Except String User × List String :=
  match validateUserData cfg u true with
  | .error e => (.error e, [])
  | .ok _ =>
    let updatedUser := formatUserData env u (some userId)
    (.ok updatedUser,
      log cfg ("User updated: " ++ updatedUser.name ++ " (" ++ updatedUser.email ++ ")"))

end ConfigurableUserManager

end DRYjs

namespace DRYts

/-- `UserData` (TS): `email` and `name` are plain strings, `password` is
optional. -/
structure UserData where
  email : String
  name : String
  password : Option String
  deriving DecidableEq

/-- `User` (TS): `createdAt` optional, `updatedAt` required. -/
structure User where
  id : String
  email : String
  name : String
  password : Option String
  createdAt : Option String
  updatedAt : String
  deriving DecidableEq

/-- Split a character list at every occurrence of `sep` (the `@` split
used to analyse the regex; structural so proofs can evaluate it). -/
def splitAtChar (sep : Char) : List Char → List (List Char)
  | [] => [[]]
  | c :: cs =>
    match splitAtChar sep cs with
    | [] => [[]]
    | g :: gs => if c == sep then [] :: g :: gs else (c :: g) :: gs

/-- Character class `[a-zA-Z0-9._%+-]` of the local part of
`VALIDATION_RULES.emailPattern`. -/
def isEmailLocalChar (c : Char) : Bool :=
  c.isAlpha || c.isDigit || c == '.' || c == '_' || c == '%' || c == '+' || c == '-'

/-- Character class `[a-zA-Z0-9.-]` of the domain part of
`VALIDATION_RULES.emailPattern`. -/
def isEmailDomainChar (c : Char) : Bool :=
  c.isAlpha || c.isDigit || c == '.' || c == '-'

/-- `VALIDATION_RULES.emailPattern.test`, the anchored regex
`[a-zA-Z0-9._%+-]+@[a-zA-Z0-9.-]+[.][a-zA-Z]{2,}` (anchored on both
sides).  Neither character class contains `@`, so a match needs exactly
one `@`; the final `[a-zA-Z]{2,}` contains no dot and is anchored at the
end, so the dot it follows is the last dot of the domain part. -/
def emailPatternTest (s : String) : Bool :=
  match splitAtChar '@' s.data with
  | [localPart, domainPart] =>
    let tld := (domainPart.reverse.takeWhile (fun c => !(c == '.'))).reverse
    let rest := domainPart.take (domainPart.length - tld.length)
    !localPart.isEmpty && localPart.all isEmailLocalChar &&
    (match rest.getLast? with
     | some '.' =>
       let dom := rest.take (rest.length - 1)
       !dom.isEmpty && dom.all isEmailDomainChar &&
         tld.all Char.isAlpha && decide (2 ≤ tld.length)
     | _ => false)
  | _ => false

namespace ValidationUtils

/-- `ValidationUtils.validateEmail` (TS): the length check, then the
`emailPattern` test. -/
def validateEmail (email : String) : Except String Unit :=
  if email == "" || email.length < 5 then
    .error "Invalid email"
  else if !(emailPatternTest email) then
    .error "Invalid email format"
  else .ok ()

/-- `ValidationUtils.validateName` (TS). -/
def validateName (name : String) : Except String Unit :=
  if name == "" || name.length < 2 then
    .error "Invalid name"
  else .ok ()

/-- `ValidationUtils.validatePassword` (TS): callers pass
`userData.password || ""`, so the argument is a plain string. -/
def validatePassword (password : String) (required : Bool) : Except String Unit :=
  if required && (password == "" || password.length < 8) then
    .error "Password too short"
  else if !required && (!(password == "") && password.length < 8) then
    .error "Password too short"
  else .ok ()

end ValidationUtils

namespace FormattingUtils

/-- `FormattingUtils.formatEmail` (TS). -/
def formatEmail (email : String) : String := jsTrim (jsToLowerCase email)

/-- `FormattingUtils.formatName` (TS). -/
def formatName (name : String) : String := jsTrim name

end FormattingUtils

namespace UserLogger

/-- The initial value of the static field `UserLogger.isEnabled` (TS). -/
def isEnabledInit : Bool := true

/-- `UserLogger.configure` (TS): overwrites the static `isEnabled` flag. -/
def configure (enabled : Bool) (_isEnabled : Bool) : Bool := enabled

/-- `UserLogger.logUserCreated` (TS): lines printed, given the current
value of the static `isEnabled` flag. -/
def logUserCreated (isEnabled : Bool) (user : User) : List String :=
  if isEnabled then ["User created: " ++ user.name ++ " (" ++ user.email ++ ")"]
  else []

/-- `UserLogger.logUserUpdated` (TS). -/
def logUserUpdated (isEnabled : Bool) (user : User) : List String :=
  if isEnabled then ["User updated: " ++ user.name ++ " (" ++ user.email ++ ")"]
  else []

end UserLogger

namespace UserManagerWET

/-- `UserManagerWET.createUser` (TS): length checks only (no pattern
test), then the record build.  `genId`, `ts1`, `ts2` are the results of
the id expression and the two `new Date().toISOString()` calls. -/
def createUser (genId ts1 ts2 : String) (u : UserData) :
    Except String User × List String :=
  if u.email == "" || u.email.length < 5 then
    (.error "Invalid email", [])
  else if u.name == "" || u.name.length < 2 then
    (.error "Invalid name", [])
  else if jsFalsy u.password || (jsStr u.password).length < 8 then
    (.error "Password too short", [])
  else
    let user : User :=
      { id := genId
        email := jsTrim (jsToLowerCase u.email)
        name := jsTrim u.name
        password := u.password
        createdAt := some ts1
        updatedAt := ts2 }
    (.ok user, ["User created: " ++ user.name ++ " (" ++ user.email ++ ")"])

/-- `UserManagerWET.updateUser` (TS). -/
def updateUser (userId : String) (ts : String) (u : UserData) :
    Except String User × List String :=
  if u.email == "" || u.email.length < 5 then
    (.error "Invalid email", [])
  else if u.name == "" || u.name.length < 2 then
    (.error "Invalid name", [])
  else if jsTruthy u.password && (jsStr u.password).length < 8 then
    (.error "Password too short", [])
  else
    let updatedUser : User :=
      { id := userId
        email := jsTrim (jsToLowerCase u.email)
        name := jsTrim u.name
        password := u.password
        createdAt := none
        updatedAt := ts }
    (.ok updatedUser,
      ["User updated: " ++ updatedUser.name ++ " (" ++ updatedUser.email ++ ")"])

end UserManagerWET

namespace BaseUserManager

/-- `BaseUserManager.validateUserData` (TS): delegates to
`ValidationUtils`, passing `userData.password || ""`. -/
def validateUserData (u : UserData) (isUpdate : Bool) : Except String Unit := do
  ValidationUtils.validateEmail u.email
  ValidationUtils.validateName u.name
  ValidationUtils.validatePassword (u.password.getD "") (!isUpdate)

/-- `BaseUserManager.formatUserData` (TS): `userId || generateId()` and
the `if (!userId) user.createdAt = timestamp` assignment both use string
truthiness of the optional `userId`. -/
def formatUserData (env : Env) (u : UserData) (userId : Option String) : User :=
  let timestamp := env.now
  { id := if jsTruthy userId then jsStr userId else env.genId
    email := FormattingUtils.formatEmail u.email
    name := FormattingUtils.formatName u.name
    password := u.password
    createdAt := if jsTruthy userId then none else some timestamp
    updatedAt := timestamp }

end BaseUserManager

namespace UserManagerDRY

/-- `UserManagerDRY.createUser` (TS): validate, format, log through the
static `UserLogger` (whose `isEnabled` flag is passed in), return. -/
def createUser (loggerEnabled : Bool) (env : Env) (u : UserData) :
    Except String User × List String :=
  match BaseUserManager.validateUserData u false with
  | .error e => (.error e, [])
  | .ok _ =>
    let user := BaseUserManager.formatUserData env u none
    (.ok user, UserLogger.logUserCreated loggerEnabled user)

/-- `UserManagerDRY.updateUser` (TS). -/
def updateUser (loggerEnabled : Bool) (env : Env) (userId : String) (u : UserData) :
    Except String User × List String :=
  match BaseUserManager.validateUserData u true with
  | .error e => (.error e, [])
  | .ok _ =>
    let updatedUser := BaseUserManager.formatUserData env u (some userId)
    (.ok updatedUser, UserLogger.logUserUpdated loggerEnabled updatedUser)

end UserManagerDRY

namespace ConfigurableUserManager

/-- The merged configuration of a TS `ConfigurableUserManager` (the
`emailPattern` field is the fixed regex modelled by `emailPatternTest`). -/
structure Config where
  emailMinLength : Nat
  nameMinLength : Nat
  passwordMinLength : Nat
  loggingEnabled : Bool
  deriving DecidableEq

/-- The configuration produced by `new ConfigurableUserManager()`. -/
def defaultConfig : Config :=
  { emailMinLength := 5, nameMinLength := 2, passwordMinLength := 8
    loggingEnabled := true }

/-- `ConfigurableUserManager.validateField` (TS). -/
def validateField (fieldName : String) (value : String) (minLength : Nat) :
    Except String Unit :=
  if value == "" || value.length < minLength then
    .error ("Invalid " ++ fieldName)
  else .ok ()

/-- `ConfigurableUserManager.validateUserData` (TS): the length check on
the email, then the pattern test, then name and (conditionally) password. -/
def validateUserData (cfg : Config) (u : UserData) (isUpdate : Bool) :
    Except String Unit := do
  validateField "email" u.email cfg.emailMinLength
  if !(emailPatternTest u.email) then
    Except.error "Invalid email format"
  validateField "name" u.name cfg.nameMinLength
  if !isUpdate || jsTruthy u.password then
    validateField "password" (u.password.getD "") cfg.passwordMinLength

end ConfigurableUserManager

end DRYts

namespace SOLIDjs

/-- `Message` (SOLID example): wraps the content string. -/
structure Message where
  content : String
  deriving DecidableEq

/-- The sender classes of the SOLID example: `EmailSender`, `SMSSender`,
`PushSender`. -/
inductive Sender where
  | emailSender
  | smsSender
  | pushSender
  deriving DecidableEq

/-- The `send` method of each sender class: the line it prints for a
message. -/
def Sender.send : Sender → Message → String
  | .emailSender, m => "Sending EMAIL: " ++ m.content
  | .smsSender, m => "Sending SMS: " ++ m.content
  | .pushSender, m => "Sending PUSH: " ++ m.content

namespace NotificationService

/-- `NotificationService.notify`: `this.senders.forEach((sender) =>
sender.send(message))` — one line printed per sender, in list order. -/
def notify (senders : List Sender) (m : Message) : List String :=
  senders.map (fun sender => Sender.send sender m)

end NotificationService

end SOLIDjs

/-- Result comparison used by the WET/DRY equivalence claim, following the
claim's words: both calls throw with the same message, or both succeed
with the same `email`, `name` and `password` fields (JS record types). -/
def DRYjs.resultsAgree : Except String DRYjs.User → Except String DRYjs.User → Bool
  | .error e1, .error e2 => e1 == e2
  | .ok u1, .ok u2 => u1.email == u2.email && u1.name == u2.name && u1.password == u2.password
  | _, _ => false

/-- Result comparison for the TS WET/DRY pair, same reading of the claim. -/
def DRYts.resultsAgree : Except String DRYts.User → Except String DRYts.User → Bool
  | .error e1, .error e2 => e1 == e2
  | .ok u1, .ok u2 => u1.email == u2.email && u1.name == u2.name && u1.password == u2.password
  | _, _ => false

theorem error_bind {α β : Type} (e : String) (f : α → Except String β) :
    (Except.error e >>= f : Except String β) = .error e := rfl

theorem ok_bind {α β : Type} (a : α) (f : α → Except String β) :
    (Except.ok a >>= f : Except String β) = f a := rfl

theorem isOk_ok {α : Type} (a : α) : (Except.ok a : Except String α).isOk = true := rfl

theorem isOk_error {α : Type} (e : String) : (Except.error e : Except String α).isOk = false := rfl

theorem EMAIL_MIN_LENGTH_eq : DRYjs.VALIDATION_RULES.EMAIL_MIN_LENGTH = 5 := rfl

theorem NAME_MIN_LENGTH_eq : DRYjs.VALIDATION_RULES.NAME_MIN_LENGTH = 2 := rfl

theorem PASSWORD_MIN_LENGTH_eq : DRYjs.VALIDATION_RULES.PASSWORD_MIN_LENGTH = 8 := rfl

theorem jsFalsy_eq_jsStr_beq (v : Option String) : jsFalsy v = (jsStr v == "") := by
  cases v <;> rfl

theorem jsFalsy_none : jsFalsy none = true := rfl

theorem jsFalsy_some (s : String) : jsFalsy (some s) = (s == "") := rfl

theorem jsStr_none : jsStr none = "" := rfl

theorem jsStr_some (s : String) : jsStr (some s) = s := rfl

theorem jsTruthy_none : jsTruthy none = false := rfl

theorem jsTruthy_some (s : String) : jsTruthy (some s) = !(s == "") := rfl

theorem jsTruthy_eq_jsStr_beq (v : Option String) : jsTruthy v = !(jsStr v == "") := by
  cases v <;> rfl

/-- `UserManagerDRY.validateUserData` (JS) unfolded for `createUser`:
the three checks of the WET `createUser`, in order. -/
theorem DRYjs.validateUserData_create_eq (u : DRYjs.UserData) :
    DRYjs.UserManagerDRY.validateUserData u false =
      if jsFalsy u.email || (jsStr u.email).length < 5 then .error "Invalid email"
      else if jsFalsy u.name || (jsStr u.name).length < 2 then .error "Invalid name"
      else if jsFalsy u.password || (jsStr u.password).length < 8 then .error "Password too short"
      else .ok () := by
  simp only [DRYjs.UserManagerDRY.validateUserData, DRYjs.ValidationUtils.validateEmail,
    DRYjs.ValidationUtils.validateName, DRYjs.ValidationUtils.validatePassword,
    EMAIL_MIN_LENGTH_eq, NAME_MIN_LENGTH_eq, PASSWORD_MIN_LENGTH_eq,
    Bool.not_false, Bool.true_and, Bool.not_true, Bool.false_and]
  split_ifs <;> simp_all [error_bind, ok_bind]

/-- `UserManagerDRY.validateUserData` (JS) unfolded for `updateUser`:
the three checks of the WET `updateUser`, in order. -/
theorem DRYjs.validateUserData_update_eq (u : DRYjs.UserData) :
    DRYjs.UserManagerDRY.validateUserData u true =
      if jsFalsy u.email || (jsStr u.email).length < 5 then .error "Invalid email"
      else if jsFalsy u.name || (jsStr u.name).length < 2 then .error "Invalid name"
      else if jsTruthy u.password && (jsStr u.password).length < 8 then .error "Password too short"
      else .ok () := by
  simp only [DRYjs.UserManagerDRY.validateUserData, DRYjs.ValidationUtils.validateEmail,
    DRYjs.ValidationUtils.validateName, DRYjs.ValidationUtils.validatePassword,
    EMAIL_MIN_LENGTH_eq, NAME_MIN_LENGTH_eq, PASSWORD_MIN_LENGTH_eq,
    Bool.not_true, Bool.false_and, Bool.not_false, Bool.true_and]
  split_ifs <;> simp_all [error_bind, ok_bind]

/-- `ConfigurableUserManager.validateUserData` (JS) unfolded for
`createUser`. -/
theorem DRYjs.configValidate_create_eq (cfg : DRYjs.ConfigurableUserManager.Config)
    (u : DRYjs.UserData) :
    DRYjs.ConfigurableUserManager.validateUserData cfg u false =
      if jsFalsy u.email || (jsStr u.email).length < cfg.emailMinLength then .error "Invalid email"
      else if jsFalsy u.name || (jsStr u.name).length < cfg.nameMinLength then .error "Invalid name"
      else if jsFalsy u.password || (jsStr u.password).length < cfg.passwordMinLength then .error "Invalid password"
      else .ok () := by
  simp only [DRYjs.ConfigurableUserManager.validateUserData, DRYjs.ConfigurableUserManager.validate,
    Bool.not_false, Bool.true_or]
  split_ifs <;> simp_all [error_bind, ok_bind]

/-- `ConfigurableUserManager.validateUserData` (JS) unfolded for
`updateUser`. -/
theorem DRYjs.configValidate_update_eq (cfg : DRYjs.ConfigurableUserManager.Config)
    (u : DRYjs.UserData) :
    DRYjs.ConfigurableUserManager.validateUserData cfg u true =
      if jsFalsy u.email || (jsStr u.email).length < cfg.emailMinLength then .error "Invalid email"
      else if jsFalsy u.name || (jsStr u.name).length < cfg.nameMinLength then .error "Invalid name"
      else if jsTruthy u.password && (jsStr u.password).length < cfg.passwordMinLength then .error "Invalid password"
      else .ok () := by
  simp only [DRYjs.ConfigurableUserManager.validateUserData, DRYjs.ConfigurableUserManager.validate,
    Bool.not_true, Bool.false_or]
  split_ifs <;> simp_all [error_bind, ok_bind, jsTruthy]
  omega

/-- `BaseUserManager.validateUserData` (TS) unfolded for `createUser`:
the WET checks plus the email-pattern check. -/
theorem DRYts.baseValidate_create_eq (u : DRYts.UserData) :
    DRYts.BaseUserManager.validateUserData u false =
      if u.email == "" || u.email.length < 5 then .error "Invalid email"
      else if !(DRYts.emailPatternTest u.email) then .error "Invalid email format"
      else if u.name == "" || u.name.length < 2 then .error "Invalid name"
      else if (u.password.getD "") == "" || (u.password.getD "").length < 8 then .error "Password too short"
      else .ok () := by
  simp only [DRYts.BaseUserManager.validateUserData, DRYts.ValidationUtils.validateEmail,
    DRYts.ValidationUtils.validateName, DRYts.ValidationUtils.validatePassword,
    Bool.not_false, Bool.true_and, Bool.not_true, Bool.false_and]
  split_ifs <;> simp_all [error_bind, ok_bind]

/-- `BaseUserManager.validateUserData` (TS) unfolded for `updateUser`. -/
theorem DRYts.baseValidate_update_eq (u : DRYts.UserData) :
    DRYts.BaseUserManager.validateUserData u true =
      if u.email == "" || u.email.length < 5 then .error "Invalid email"
      else if !(DRYts.emailPatternTest u.email) then .error "Invalid email format"
      else if u.name == "" || u.name.length < 2 then .error "Invalid name"
      else if !((u.password.getD "") == "") && (u.password.getD "").length < 8 then .error "Password too short"
      else .ok () := by
  simp only [DRYts.BaseUserManager.validateUserData, DRYts.ValidationUtils.validateEmail,
    DRYts.ValidationUtils.validateName, DRYts.ValidationUtils.validatePassword,
    Bool.not_true, Bool.false_and, Bool.not_false, Bool.true_and]
  split_ifs <;> simp_all [error_bind, ok_bind]

/-- C2: `NotificationService.notify(m)` calls `send(m)` on each sender in
the list, once per sender, in list order, and each sender prints exactly
one line `Sending EMAIL: <content>`, `Sending SMS: <content>` or
`Sending PUSH: <content>` for the message's content. -/
theorem c2_notify_sends_each_sender_in_order :
    ∀ (senders : List SOLIDjs.Sender) (m : SOLIDjs.Message),
      SOLIDjs.NotificationService.notify senders m =
        senders.map (fun sender => SOLIDjs.Sender.send sender m) ∧
      (SOLIDjs.NotificationService.notify senders m).length = senders.length ∧
      SOLIDjs.Sender.send .emailSender m = "Sending EMAIL: " ++ m.content ∧
      SOLIDjs.Sender.send .smsSender m = "Sending SMS: " ++ m.content ∧
      SOLIDjs.Sender.send .pushSender m = "Sending PUSH: " ++ m.content := by
  intro senders m
  refine ⟨rfl, ?_, rfl, rfl, rfl⟩
  simp [SOLIDjs.NotificationService.notify]

/-- C6: on invalid `userData` the JS DRY and configurable managers throw
before any formatting or console output: the result is the validation
error and the list of printed lines is empty, so no user record is
produced and no log line is printed. -/
theorem c6_throw_before_output (env : Env) (userId : String)
    (u : DRYjs.UserData) (cfg : DRYjs.ConfigurableUserManager.Config) (e : String) :
    (DRYjs.UserManagerDRY.validateUserData u false = .error e →
      DRYjs.UserManagerDRY.createUser env u = (.error e, [])) ∧
    (DRYjs.UserManagerDRY.validateUserData u true = .error e →
      DRYjs.UserManagerDRY.updateUser env userId u = (.error e, [])) ∧
    (DRYjs.ConfigurableUserManager.validateUserData cfg u false = .error e →
      DRYjs.ConfigurableUserManager.createUser cfg env u = (.error e, [])) ∧
    (DRYjs.ConfigurableUserManager.validateUserData cfg u true = .error e →
      DRYjs.ConfigurableUserManager.updateUser cfg env userId u = (.error e, [])) := by
  refine ⟨?_, ?_, ?_, ?_⟩ <;> intro h <;>
    simp [DRYjs.UserManagerDRY.createUser, DRYjs.UserManagerDRY.updateUser,
      DRYjs.ConfigurableUserManager.createUser, DRYjs.ConfigurableUserManager.updateUser, h]

theorem c6_throw_before_output_witness :
    DRYjs.UserManagerDRY.createUser ⟨"g1", "T0"⟩ ⟨none, none, none⟩
      = (.error "Invalid email", []) :=
  (c6_throw_before_output ⟨"g1", "T0"⟩ "u1" ⟨none, none, none⟩
    DRYjs.ConfigurableUserManager.defaultConfig "Invalid email").1 rfl

/-- C1 counterexample: with the default configuration, the configurable
DRY variant's `createUser` rejects a short password with the message
`Invalid password`, not `Password too short` as the claim states for the
DRY variants (this is the repository's own usage-example input). -/
theorem c1_configurable_password_message_counterexample :
    (DRYjs.ConfigurableUserManager.createUser DRYjs.ConfigurableUserManager.defaultConfig
        ⟨"g1", "T0"⟩ ⟨some "bob@example.com", some "Bob Johnson", some "short"⟩).1
      = .error "Invalid password" ∧ "Invalid password" ≠ "Password too short" :=
  ⟨rfl, by decide⟩

/-- C1 (amended): when a field-length check fails, `UserManagerWET` and
`UserManagerDRY` throw `Invalid email` / `Invalid name` /
`Password too short` for the failed field, while the
`ConfigurableUserManager` variant throws `Invalid email` /
`Invalid name` / `Invalid password`. -/
theorem c1_error_messages (genId ts1 ts2 : String) (env : Env) (u : DRYjs.UserData) :
    ((jsFalsy u.email || (jsStr u.email).length < 5) = true →
      (DRYjs.UserManagerWET.createUser genId ts1 ts2 u).1 = .error "Invalid email" ∧
      (DRYjs.UserManagerDRY.createUser env u).1 = .error "Invalid email" ∧
      (DRYjs.ConfigurableUserManager.createUser DRYjs.ConfigurableUserManager.defaultConfig
        env u).1 = .error "Invalid email") ∧
    ((jsFalsy u.email || (jsStr u.email).length < 5) = false →
     (jsFalsy u.name || (jsStr u.name).length < 2) = true →
      (DRYjs.UserManagerWET.createUser genId ts1 ts2 u).1 = .error "Invalid name" ∧
      (DRYjs.UserManagerDRY.createUser env u).1 = .error "Invalid name" ∧
      (DRYjs.ConfigurableUserManager.createUser DRYjs.ConfigurableUserManager.defaultConfig
        env u).1 = .error "Invalid name") ∧
    ((jsFalsy u.email || (jsStr u.email).length < 5) = false →
     (jsFalsy u.name || (jsStr u.name).length < 2) = false →
     (jsFalsy u.password || (jsStr u.password).length < 8) = true →
      (DRYjs.UserManagerWET.createUser genId ts1 ts2 u).1 = .error "Password too short" ∧
      (DRYjs.UserManagerDRY.createUser env u).1 = .error "Password too short" ∧
      (DRYjs.ConfigurableUserManager.createUser DRYjs.ConfigurableUserManager.defaultConfig
        env u).1 = .error "Invalid password") := by
  refine ⟨?_, ?_, ?_⟩
  · intro h1
    simp [DRYjs.UserManagerWET.createUser, DRYjs.UserManagerDRY.createUser,
      DRYjs.ConfigurableUserManager.createUser, DRYjs.validateUserData_create_eq,
      DRYjs.configValidate_create_eq, DRYjs.ConfigurableUserManager.defaultConfig, h1]
  · intro h1 h2
    simp [DRYjs.UserManagerWET.createUser, DRYjs.UserManagerDRY.createUser,
      DRYjs.ConfigurableUserManager.createUser, DRYjs.validateUserData_create_eq,
      DRYjs.configValidate_create_eq, DRYjs.ConfigurableUserManager.defaultConfig, h1, h2]
  · intro h1 h2 h3
    simp [DRYjs.UserManagerWET.createUser, DRYjs.UserManagerDRY.createUser,
      DRYjs.ConfigurableUserManager.createUser, DRYjs.validateUserData_create_eq,
      DRYjs.configValidate_create_eq, DRYjs.ConfigurableUserManager.defaultConfig, h1, h2, h3]

theorem c1_error_messages_witness :
    (DRYjs.UserManagerWET.createUser "g1" "T0" "T1"
        ⟨some "bob@example.com", some "Bob", some "short"⟩).1 = .error "Password too short" ∧
    (DRYjs.UserManagerDRY.createUser ⟨"g1", "T0"⟩
        ⟨some "bob@example.com", some "Bob", some "short"⟩).1 = .error "Password too short" ∧
    (DRYjs.ConfigurableUserManager.createUser DRYjs.ConfigurableUserManager.defaultConfig
        ⟨"g1", "T0"⟩ ⟨some "bob@example.com", some "Bob", some "short"⟩).1
      = .error "Invalid password" :=
  (c1_error_messages "g1" "T0" "T1" ⟨"g1", "T0"⟩
    ⟨some "bob@example.com", some "Bob", some "short"⟩).2.2 rfl rfl rfl

/-- C5 counterexample: the TS `UserLogger` keeps shared mutable state —
after a prior `UserLogger.configure(false)` call, `logUserCreated` prints
nothing, while without that prior call it prints the creation line, so
the second operation's result depends on whether the first was invoked. -/
theorem c5_userlogger_state_counterexample :
    DRYts.UserLogger.logUserCreated
        (DRYts.UserLogger.configure false DRYts.UserLogger.isEnabledInit)
        ⟨"id1", "ann@example.com", "Ann", none, none, "T0"⟩ = [] ∧
    DRYts.UserLogger.logUserCreated DRYts.UserLogger.isEnabledInit
        ⟨"id1", "ann@example.com", "Ann", none, none, "T0"⟩
      = ["User created: Ann (ann@example.com)"] ∧
    ([] : List String) ≠ ["User created: Ann (ann@example.com)"] :=
  ⟨rfl, rfl, by decide⟩

/-- C5 (amended): the example components are stateless except the TS
`UserLogger` (and the `UserManagerFactory` instance cache): for every
user record, the output of `logUserCreated` differs according to whether
`configure(false)` was previously invoked on the shared static flag. -/
theorem c5_userlogger_shared_state (u : DRYts.User) :
    DRYts.UserLogger.logUserCreated
        (DRYts.UserLogger.configure false DRYts.UserLogger.isEnabledInit) u = [] ∧
    DRYts.UserLogger.logUserCreated DRYts.UserLogger.isEnabledInit u
      = ["User created: " ++ u.name ++ " (" ++ u.email ++ ")"] ∧
    DRYts.UserLogger.logUserCreated
        (DRYts.UserLogger.configure false DRYts.UserLogger.isEnabledInit) u ≠
      DRYts.UserLogger.logUserCreated DRYts.UserLogger.isEnabledInit u := by
  refine ⟨rfl, rfl, ?_⟩
  simp [DRYts.UserLogger.logUserCreated, DRYts.UserLogger.configure,
    DRYts.UserLogger.isEnabledInit]

/-- C4 counterexample: TS `ValidationUtils.validateEmail` rejects the
present, length-5 string `aaaaa` with `Invalid email format`, so email
validation is not solely a length check in every variant. -/
theorem c4_ts_pattern_counterexample :
    DRYts.ValidationUtils.validateEmail "aaaaa" = .error "Invalid email format" ∧
    ¬("aaaaa" = "") ∧ 5 ≤ ("aaaaa" : String).length :=
  ⟨rfl, by decide, by decide⟩

/-- C4 (amended): email validation is exactly the presence-and-length
check in the JS variants (`ValidationUtils.validateEmail` and the
configurable `validate`), while TS `ValidationUtils.validateEmail`
additionally requires the email to match the `emailPattern` regex, and
the TS configurable `validateUserData` throws `Invalid email format`
whenever the length check passes but the pattern fails. -/
theorem c4_email_validation_characterization :
    (∀ email : Option String,
      DRYjs.ValidationUtils.validateEmail email = .ok () ↔
        jsFalsy email = false ∧ 5 ≤ (jsStr email).length) ∧
    (∀ (field : String) (value : Option String) (minLength : Nat),
      DRYjs.ConfigurableUserManager.validate field value minLength = .ok () ↔
        jsFalsy value = false ∧ minLength ≤ (jsStr value).length) ∧
    (∀ email : String,
      DRYts.ValidationUtils.validateEmail email = .ok () ↔
        ¬(email = "") ∧ 5 ≤ email.length ∧ DRYts.emailPatternTest email = true) ∧
    (∀ (cfg : DRYts.ConfigurableUserManager.Config) (u : DRYts.UserData) (isUpdate : Bool),
      (u.email == "" || u.email.length < cfg.emailMinLength) = false →
      DRYts.emailPatternTest u.email = false →
      DRYts.ConfigurableUserManager.validateUserData cfg u isUpdate
        = .error "Invalid email format") := by
  refine ⟨?_, ?_, ?_, ?_⟩
  · intro email
    simp [DRYjs.ValidationUtils.validateEmail, EMAIL_MIN_LENGTH_eq, Nat.not_lt]
  · intro field value minLength
    simp [DRYjs.ConfigurableUserManager.validate, Nat.not_lt]
  · intro email
    constructor
    · intro h
      unfold DRYts.ValidationUtils.validateEmail at h
      split_ifs at h with hc hp
      simp only [Bool.or_eq_true, beq_iff_eq, decide_eq_true_eq, not_or] at hc
      exact ⟨hc.1, by omega, by simpa using hp⟩
    · rintro ⟨h1, h2, h3⟩
      have hc : (email == "" || decide (email.length < 5)) = false := by
        simp [h1]
        omega
      have hp : (!DRYts.emailPatternTest email) = false := by simp [h3]
      simp [DRYts.ValidationUtils.validateEmail, hc, hp]
  · intro cfg u isUpdate h1 h2
    simp [DRYts.ConfigurableUserManager.validateUserData,
      DRYts.ConfigurableUserManager.validateField, h1, h2, error_bind, ok_bind]

theorem c4_email_validation_characterization_witness :
    DRYts.ConfigurableUserManager.validateUserData
        DRYts.ConfigurableUserManager.defaultConfig ⟨"aaaaa", "ab", some "password1"⟩ false
      = .error "Invalid email format" :=
  c4_email_validation_characterization.2.2.2
    DRYts.ConfigurableUserManager.defaultConfig ⟨"aaaaa", "ab", some "password1"⟩ false
    (by decide) rfl

/-- C3 counterexample: the input `{email: "aaaaa", name: "ab", password:
"password1"}` passes every string-length check, yet the TS
`UserManagerDRY.createUser` throws `Invalid email format` instead of
returning a user record. -/
theorem c3_ts_pattern_crash_counterexample :
    (("aaaaa" : String) == "" || ("aaaaa" : String).length < 5) = false ∧
    (("ab" : String) == "" || ("ab" : String).length < 2) = false ∧
    (jsFalsy (some "password1") || (jsStr (some "password1")).length < 8) = false ∧
    (DRYts.UserManagerDRY.createUser true ⟨"g1", "T0"⟩ ⟨"aaaaa", "ab", some "password1"⟩).1
      = .error "Invalid email format" :=
  ⟨by decide, by decide, by decide, rfl⟩

/-- C3 (amended): when every field passes its string-length check,
`createUser` throws nothing and returns a user record in the JS variants
(WET, DRY, configurable with default config) and in the TS WET variant;
the TS DRY variant additionally requires the email to match the
`emailPattern` regex. -/
theorem c3_wellformed_create_succeeds (genId ts1 ts2 : String) (env : Env)
    (loggerEnabled : Bool) (uj : DRYjs.UserData) (ut : DRYts.UserData) :
    ((jsFalsy uj.email || (jsStr uj.email).length < 5) = false →
     (jsFalsy uj.name || (jsStr uj.name).length < 2) = false →
     (jsFalsy uj.password || (jsStr uj.password).length < 8) = false →
      (DRYjs.UserManagerWET.createUser genId ts1 ts2 uj).1.isOk = true ∧
      (DRYjs.UserManagerDRY.createUser env uj).1.isOk = true ∧
      (DRYjs.ConfigurableUserManager.createUser DRYjs.ConfigurableUserManager.defaultConfig
        env uj).1.isOk = true) ∧
    ((ut.email == "" || ut.email.length < 5) = false →
     (ut.name == "" || ut.name.length < 2) = false →
     (jsFalsy ut.password || (jsStr ut.password).length < 8) = false →
      (DRYts.UserManagerWET.createUser genId ts1 ts2 ut).1.isOk = true ∧
      (DRYts.emailPatternTest ut.email = true →
        (DRYts.UserManagerDRY.createUser loggerEnabled env ut).1.isOk = true)) := by
  constructor
  · intro h1 h2 h3
    simp [DRYjs.UserManagerWET.createUser, DRYjs.UserManagerDRY.createUser,
      DRYjs.ConfigurableUserManager.createUser, DRYjs.validateUserData_create_eq,
      DRYjs.configValidate_create_eq, DRYjs.ConfigurableUserManager.defaultConfig,
      isOk_ok, h1, h2, h3]
  · intro h1 h2 h3
    rw [jsFalsy_eq_jsStr_beq] at h3
    simp only [jsStr] at h3
    constructor
    · simp [DRYts.UserManagerWET.createUser, jsFalsy_eq_jsStr_beq, jsStr,
        isOk_ok, h1, h2, h3]
    · intro hp
      simp [DRYts.UserManagerDRY.createUser, DRYts.baseValidate_create_eq,
        isOk_ok, h1, h2, h3, hp]

theorem c3_wellformed_create_succeeds_witness :
    (DRYjs.UserManagerDRY.createUser ⟨"g1", "T0"⟩
        ⟨some "jane@example.com", some "Jane Smith", some "password456"⟩).1.isOk = true ∧
    (DRYts.UserManagerDRY.createUser true ⟨"g1", "T0"⟩
        ⟨"jane@example.com", "Jane Smith", some "password456"⟩).1.isOk = true := by
  refine ⟨((c3_wellformed_create_succeeds "g1" "T0" "T1" ⟨"g1", "T0"⟩ true
      ⟨some "jane@example.com", some "Jane Smith", some "password456"⟩
      ⟨"jane@example.com", "Jane Smith", some "password456"⟩).1
      (by decide) (by decide) (by decide)).2.1,
    ((c3_wellformed_create_succeeds "g1" "T0" "T1" ⟨"g1", "T0"⟩ true
      ⟨some "jane@example.com", some "Jane Smith", some "password456"⟩
      ⟨"jane@example.com", "Jane Smith", some "password456"⟩).2
      (by decide) (by decide) (by decide)).2 rfl⟩

/-- C7 counterexample: for the valid input email `"A@B.CC "` the user
record's email is the lower-cased AND trimmed string `"a@b.cc"`, not the
merely lower-cased `"a@b.cc "` the claim describes. -/
theorem c7_trim_counterexample :
    (DRYjs.UserManagerDRY.createUser ⟨"g1", "T0"⟩
        ⟨some "A@B.CC ", some "John", some "password1"⟩).1.map (fun user => user.email)
      = .ok "a@b.cc" ∧
    jsToLowerCase "A@B.CC " = "a@b.cc " ∧
    ("a@b.cc" : String) ≠ "a@b.cc " :=
  ⟨rfl, rfl, by decide⟩

/-- C7 (amended): every user record returned by the DRY `createUser` or
`updateUser` (JS and TS) carries the input email lower-cased AND trimmed,
and the input name trimmed, exactly as `FormattingUtils.formatEmail` /
`formatName` produce them. -/
theorem c7_format_lowercases_and_trims (env : Env) (uid : String)
    (loggerEnabled : Bool) (uj : DRYjs.UserData) (ut : DRYts.UserData) :
    (∀ user, (DRYjs.UserManagerDRY.createUser env uj).1 = .ok user →
      user.email = jsTrim (jsToLowerCase (jsStr uj.email)) ∧
      user.name = jsTrim (jsStr uj.name)) ∧
    (∀ user, (DRYjs.UserManagerDRY.updateUser env uid uj).1 = .ok user →
      user.email = jsTrim (jsToLowerCase (jsStr uj.email)) ∧
      user.name = jsTrim (jsStr uj.name)) ∧
    (∀ user, (DRYts.UserManagerDRY.createUser loggerEnabled env ut).1 = .ok user →
      user.email = jsTrim (jsToLowerCase ut.email) ∧
      user.name = jsTrim ut.name) ∧
    (∀ user, (DRYts.UserManagerDRY.updateUser loggerEnabled env uid ut).1 = .ok user →
      user.email = jsTrim (jsToLowerCase ut.email) ∧
      user.name = jsTrim ut.name) := by
  refine ⟨?_, ?_, ?_, ?_⟩ <;> intro user h
  · unfold DRYjs.UserManagerDRY.createUser at h
    cases hv : DRYjs.UserManagerDRY.validateUserData uj false <;> rw [hv] at h <;> simp at h
    rw [← h]
    exact ⟨rfl, rfl⟩
  · unfold DRYjs.UserManagerDRY.updateUser at h
    cases hv : DRYjs.UserManagerDRY.validateUserData uj true <;> rw [hv] at h <;> simp at h
    rw [← h]
    exact ⟨rfl, rfl⟩
  · unfold DRYts.UserManagerDRY.createUser at h
    cases hv : DRYts.BaseUserManager.validateUserData ut false <;> rw [hv] at h <;> simp at h
    rw [← h]
    exact ⟨rfl, rfl⟩
  · unfold DRYts.UserManagerDRY.updateUser at h
    cases hv : DRYts.BaseUserManager.validateUserData ut true <;> rw [hv] at h <;> simp at h
    rw [← h]
    exact ⟨rfl, rfl⟩

theorem c7_format_lowercases_and_trims_witness :
    ({ id := "g1", email := "a@b.cc", name := "John", password := some "password1",
       createdAt := some "T0", updatedAt := "T0" } : DRYjs.User).email
      = jsTrim (jsToLowerCase (jsStr (some "A@B.CC "))) ∧
    ({ id := "g1", email := "a@b.cc", name := "John", password := some "password1",
       createdAt := some "T0", updatedAt := "T0" } : DRYjs.User).name
      = jsTrim (jsStr (some "John")) :=
  (c7_format_lowercases_and_trims ⟨"g1", "T0"⟩ "u1" true
    ⟨some "A@B.CC ", some "John", some "password1"⟩ ⟨"a@b.cc", "John", some "password1"⟩).1
    { id := "g1", email := "a@b.cc", name := "John", password := some "password1",
      createdAt := some "T0", updatedAt := "T0" } rfl

/-- C8 counterexample: an explicitly supplied empty-string password is
below the minimum length, yet `updateUser` does not throw — JS falsiness
of `""` skips the optional-password length check. -/
theorem c8_empty_password_counterexample :
    (DRYjs.UserManagerWET.updateUser "u1" "T0"
        ⟨some "a@b.cc", some "Ann", some ""⟩).1.isOk = true ∧
    (DRYjs.UserManagerDRY.updateUser ⟨"g1", "T0"⟩ "u1"
        ⟨some "a@b.cc", some "Ann", some ""⟩).1.isOk = true ∧
    ("" : String).length < 8 :=
  ⟨rfl, rfl, by decide⟩

/-- C8 (amended): with valid email and name, a userData without a
password makes `updateUser` succeed while `createUser` throws
`Password too short`; a supplied NONEMPTY password below the minimum
length makes `updateUser` throw, a password of length at least 8 is
accepted, and a supplied empty-string password is treated as absent
(accepted) on update. -/
theorem c8_password_required_only_on_create (genId ts1 ts2 uid ts : String)
    (env : Env) (u : DRYjs.UserData)
    (hE : (jsFalsy u.email || (jsStr u.email).length < 5) = false)
    (hN : (jsFalsy u.name || (jsStr u.name).length < 2) = false) :
    (u.password = none →
      (DRYjs.UserManagerWET.updateUser uid ts u).1.isOk = true ∧
      (DRYjs.UserManagerDRY.updateUser env uid u).1.isOk = true ∧
      (DRYjs.UserManagerWET.createUser genId ts1 ts2 u).1 = .error "Password too short" ∧
      (DRYjs.UserManagerDRY.createUser env u).1 = .error "Password too short") ∧
    (u.password = some "" →
      (DRYjs.UserManagerWET.updateUser uid ts u).1.isOk = true ∧
      (DRYjs.UserManagerDRY.updateUser env uid u).1.isOk = true) ∧
    (∀ p, u.password = some p → p ≠ "" → p.length < 8 →
      (DRYjs.UserManagerWET.updateUser uid ts u).1 = .error "Password too short" ∧
      (DRYjs.UserManagerDRY.updateUser env uid u).1 = .error "Password too short") ∧
    (∀ p, u.password = some p → 8 ≤ p.length →
      (DRYjs.UserManagerWET.updateUser uid ts u).1.isOk = true ∧
      (DRYjs.UserManagerDRY.updateUser env uid u).1.isOk = true) := by
  refine ⟨?_, ?_, ?_, ?_⟩
  · intro hp
    simp [DRYjs.UserManagerWET.updateUser, DRYjs.UserManagerDRY.updateUser,
      DRYjs.UserManagerWET.createUser, DRYjs.UserManagerDRY.createUser,
      DRYjs.validateUserData_update_eq, DRYjs.validateUserData_create_eq,
      isOk_ok, hE, hN, hp, jsTruthy_none, jsFalsy_none, jsStr_none]
  · intro hp
    simp [DRYjs.UserManagerWET.updateUser, DRYjs.UserManagerDRY.updateUser,
      DRYjs.validateUserData_update_eq, isOk_ok, hE, hN, hp, jsTruthy_some, jsStr_some]
  · intro p hp hne hlen
    simp [DRYjs.UserManagerWET.updateUser, DRYjs.UserManagerDRY.updateUser,
      DRYjs.validateUserData_update_eq, hE, hN, hp, hne, hlen, jsTruthy_some, jsStr_some]
  · intro p hp hlen
    simp [DRYjs.UserManagerWET.updateUser, DRYjs.UserManagerDRY.updateUser,
      DRYjs.validateUserData_update_eq, isOk_ok, hE, hN, hp, jsTruthy_some, jsStr_some,
      Nat.not_lt.2 hlen]

theorem c8_password_required_only_on_create_witness :
    (DRYjs.UserManagerWET.updateUser "u1" "T0"
        ⟨some "a@b.cc", some "Ann", none⟩).1.isOk = true ∧
    (DRYjs.UserManagerDRY.updateUser ⟨"g1", "T0"⟩ "u1"
        ⟨some "a@b.cc", some "Ann", none⟩).1.isOk = true ∧
    (DRYjs.UserManagerWET.createUser "g1" "T0" "T1"
        ⟨some "a@b.cc", some "Ann", none⟩).1 = .error "Password too short" ∧
    (DRYjs.UserManagerDRY.createUser ⟨"g1", "T0"⟩
        ⟨some "a@b.cc", some "Ann", none⟩).1 = .error "Password too short" :=
  (c8_password_required_only_on_create "g1" "T0" "T1" "u1" "T0" ⟨"g1", "T0"⟩
    ⟨some "a@b.cc", some "Ann", none⟩ (by decide) (by decide)).1 rfl

/-- C9 counterexample: `updateUser` called with the empty-string `userId`
returns a record that DOES contain a `createdAt` field and whose id is a
freshly generated one, not the `userId` argument — `userId || generateId()`
and the `userId ? {} : {createdAt}` spread treat `""` as absent. -/
theorem c9_empty_userid_counterexample :
    (DRYjs.UserManagerDRY.updateUser ⟨"g9", "T0"⟩ ""
        ⟨some "a@b.cc", some "Ann", some "password1"⟩).1.map
        (fun user => (user.id, user.createdAt))
      = .ok ("g9", some "T0") ∧
    ("g9" : String) ≠ "" ∧ (some "T0" : Option String) ≠ none :=
  ⟨rfl, by decide, by decide⟩

/-- C9 (amended): a record returned by the JS DRY `createUser` has
`createdAt` equal to `updatedAt`; a record returned by `updateUser` with
a NONEMPTY `userId` has no `createdAt` and keeps `id = userId` (an
empty-string `userId` is treated as absent: a fresh id is generated and
`createdAt` is set); `email`, `name` and `password` are produced
identically by both operations. -/
theorem c9_create_update_record_shape (env : Env) (uid : String) (u : DRYjs.UserData) :
    (∀ user, (DRYjs.UserManagerDRY.createUser env u).1 = .ok user →
      user.createdAt = some user.updatedAt) ∧
    (uid ≠ "" → ∀ user, (DRYjs.UserManagerDRY.updateUser env uid u).1 = .ok user →
      user.createdAt = none ∧ user.id = uid) ∧
    (∀ user user', (DRYjs.UserManagerDRY.createUser env u).1 = .ok user →
      (DRYjs.UserManagerDRY.updateUser env uid u).1 = .ok user' →
      user.email = user'.email ∧ user.name = user'.name ∧
      user.password = user'.password) := by
  refine ⟨?_, ?_, ?_⟩
  · intro user h
    unfold DRYjs.UserManagerDRY.createUser at h
    cases hv : DRYjs.UserManagerDRY.validateUserData u false <;> rw [hv] at h <;> simp at h
    rw [← h]
    rfl
  · intro hne user h
    unfold DRYjs.UserManagerDRY.updateUser at h
    cases hv : DRYjs.UserManagerDRY.validateUserData u true <;> rw [hv] at h <;> simp at h
    rw [← h]
    constructor <;>
      simp [DRYjs.UserManagerDRY.formatUserData, jsTruthy_some, jsStr_some, hne]
  · intro user user' h h'
    unfold DRYjs.UserManagerDRY.createUser at h
    cases hv : DRYjs.UserManagerDRY.validateUserData u false <;> rw [hv] at h <;> simp at h
    unfold DRYjs.UserManagerDRY.updateUser at h'
    cases hv' : DRYjs.UserManagerDRY.validateUserData u true <;> rw [hv'] at h' <;> simp at h'
    rw [← h, ← h']
    exact ⟨rfl, rfl, rfl⟩

theorem c9_create_update_record_shape_witness :
    ({ id := "g1", email := "a@b.cc", name := "Ann", password := some "password1",
       createdAt := some "T0", updatedAt := "T0" } : DRYjs.User).createdAt
      = some ({ id := "g1", email := "a@b.cc", name := "Ann",
                password := some "password1", createdAt := some "T0",
                updatedAt := "T0" } : DRYjs.User).updatedAt ∧
    ({ id := "u1", email := "a@b.cc", name := "Ann", password := some "password1",
       createdAt := none, updatedAt := "T0" } : DRYjs.User).createdAt = none ∧
    ({ id := "u1", email := "a@b.cc", name := "Ann", password := some "password1",
       createdAt := none, updatedAt := "T0" } : DRYjs.User).id = "u1" :=
  ⟨(c9_create_update_record_shape ⟨"g1", "T0"⟩ "u1"
      ⟨some "a@b.cc", some "Ann", some "password1"⟩).1
      { id := "g1", email := "a@b.cc", name := "Ann", password := some "password1",
        createdAt := some "T0", updatedAt := "T0" } rfl,
    (c9_create_update_record_shape ⟨"g1", "T0"⟩ "u1"
      ⟨some "a@b.cc", some "Ann", some "password1"⟩).2.1 (by decide)
      { id := "u1", email := "a@b.cc", name := "Ann", password := some "password1",
        createdAt := none, updatedAt := "T0" } rfl⟩

/-- C10 counterexample: on `{email: "aaaaa", name: "ab", password:
"password1"}` the TS `UserManagerWET.createUser` succeeds while the TS
`UserManagerDRY.createUser` throws `Invalid email format`, so the TS WET
and DRY managers are not behaviorally equivalent. -/
theorem c10_ts_wet_dry_divergence_counterexample :
    (DRYts.UserManagerWET.createUser "g1" "T0" "T1"
        ⟨"aaaaa", "ab", some "password1"⟩).1.isOk = true ∧
    (DRYts.UserManagerDRY.createUser true ⟨"g1", "T0"⟩
        ⟨"aaaaa", "ab", some "password1"⟩).1 = .error "Invalid email format" ∧
    DRYts.resultsAgree
        (DRYts.UserManagerWET.createUser "g1" "T0" "T1"
          ⟨"aaaaa", "ab", some "password1"⟩).1
        (DRYts.UserManagerDRY.createUser true ⟨"g1", "T0"⟩
          ⟨"aaaaa", "ab", some "password1"⟩).1 = false :=
  ⟨rfl, rfl, rfl⟩

/-- C10 (amended): the JS WET and DRY managers are behaviorally
equivalent on every userData (same throw/no-throw, same message, same
email/name/password fields on success, for create and update); the TS
pair is equivalent in the same sense only for emails matching the
`emailPattern` regex — on other emails the TS DRY manager may throw
`Invalid email format` where WET succeeds. -/
theorem c10_wet_dry_equivalence (genId ts1 ts2 uid ts : String) (env : Env)
    (loggerEnabled : Bool) (uj : DRYjs.UserData) (ut : DRYts.UserData) :
    DRYjs.resultsAgree (DRYjs.UserManagerWET.createUser genId ts1 ts2 uj).1
      (DRYjs.UserManagerDRY.createUser env uj).1 = true ∧
    DRYjs.resultsAgree (DRYjs.UserManagerWET.updateUser uid ts uj).1
      (DRYjs.UserManagerDRY.updateUser env uid uj).1 = true ∧
    (DRYts.emailPatternTest ut.email = true →
      DRYts.resultsAgree (DRYts.UserManagerWET.createUser genId ts1 ts2 ut).1
        (DRYts.UserManagerDRY.createUser loggerEnabled env ut).1 = true ∧
      DRYts.resultsAgree (DRYts.UserManagerWET.updateUser uid ts ut).1
        (DRYts.UserManagerDRY.updateUser loggerEnabled env uid ut).1 = true) := by
  refine ⟨?_, ?_, ?_⟩
  · simp only [DRYjs.UserManagerWET.createUser, DRYjs.UserManagerDRY.createUser,
      DRYjs.validateUserData_create_eq]
    split_ifs <;>
      simp [DRYjs.resultsAgree, DRYjs.UserManagerDRY.formatUserData,
        DRYjs.FormattingUtils.formatEmail, DRYjs.FormattingUtils.formatName]
  · simp only [DRYjs.UserManagerWET.updateUser, DRYjs.UserManagerDRY.updateUser,
      DRYjs.validateUserData_update_eq]
    split_ifs <;>
      simp [DRYjs.resultsAgree, DRYjs.UserManagerDRY.formatUserData,
        DRYjs.FormattingUtils.formatEmail, DRYjs.FormattingUtils.formatName]
  · intro hp
    constructor
    · simp only [DRYts.UserManagerWET.createUser, DRYts.UserManagerDRY.createUser,
        DRYts.baseValidate_create_eq, hp, jsFalsy_eq_jsStr_beq, jsStr,
        Bool.not_true, Bool.false_eq_true, if_false]
      split_ifs <;>
        simp_all [DRYts.resultsAgree, DRYts.BaseUserManager.formatUserData,
          DRYts.FormattingUtils.formatEmail, DRYts.FormattingUtils.formatName,
          DRYts.UserLogger.logUserCreated]
    · simp only [DRYts.UserManagerWET.updateUser, DRYts.UserManagerDRY.updateUser,
        DRYts.baseValidate_update_eq, hp, jsTruthy_eq_jsStr_beq, jsStr,
        Bool.not_true, Bool.false_eq_true, if_false]
      split_ifs <;>
        simp_all [DRYts.resultsAgree, DRYts.BaseUserManager.formatUserData,
          DRYts.FormattingUtils.formatEmail, DRYts.FormattingUtils.formatName,
          DRYts.UserLogger.logUserUpdated]

theorem c10_wet_dry_equivalence_witness :
    DRYts.resultsAgree
        (DRYts.UserManagerWET.createUser "g1" "T0" "T1"
          ⟨"jane@example.com", "Jane Smith", some "password456"⟩).1
        (DRYts.UserManagerDRY.createUser true ⟨"g2", "T2"⟩
          ⟨"jane@example.com", "Jane Smith", some "password456"⟩).1 = true :=
  ((c10_wet_dry_equivalence "g1" "T0" "T1" "u1" "T0" ⟨"g2", "T2"⟩ true
    ⟨some "jane@example.com", some "Jane Smith", some "password456"⟩
    ⟨"jane@example.com", "Jane Smith", some "password456"⟩).2.2 rfl).1
